import Mathlib

/-
Shallow embedding of the pydsdl front-end (snapshot under verification).

Source layout:
  src/pydsdl/dsdl_parser.py                  -- parse_definition, _TypeBuilder, directives, resolver
  src/pydsdl/dsdl_parser/ast_transformer.py  -- expression evaluation, _apply_binary_operator

Collaborator modules referenced by the code but absent from the snapshot
(dsdl_definition.py, data_structure_builder.py, expression.py) are modelled
from the specification where a claim depends on them; each such definition
carries a doc comment starting with the words Modelled from the spec.
-/

namespace Pydsdl

/-- Expression values of the DSDL constant-expression language.  The new
evaluator (ast_transformer.py lines 60-72) uses raw Python values: bool,
Fraction, str and frozenset; the old builder wraps the same four kinds as
expression.Boolean, expression.Rational, expression.String, expression.Set.
Both are represented by this single type.  A frozenset is carried as the list
of its elements; every set operation below is defined extensionally through
Python equality, so the representation is insensitive to order and
duplication of the carrier list. -/
inductive Expr where
  | bool (b : Bool)
  | frac (q : ℚ)
  | str (s : String)
  | set (elems : List Expr)

/-- Exceptions that can escape the expression-evaluation helpers of
ast_transformer.py.  invalidOperand is the intentional InvalidOperandError;
zeroDivision is the Python ZeroDivisionError raised by Fraction arithmetic
(ast_transformer.py lines 262-268 do not guard the divisor); uncaughtKeyError
is a KeyError raised outside the try block of _apply_binary_operator. -/
inductive EvalErr where
  | invalidOperand (message : String)
  | zeroDivision
  | uncaughtKeyError
  deriving DecidableEq

mutual

/-- Python equality on expression values.  Python compares bool with Fraction
numerically (True equals 1), strings only with strings, and frozensets
extensionally; values of unrelated kinds are unequal. -/
def pyEq : Expr → Expr → Bool
  | .bool a, .bool b => a == b
  | .bool a, .frac q => (if a then (1 : ℚ) else 0) == q
  | .frac q, .bool b => q == (if b then (1 : ℚ) else 0)
  | .frac a, .frac b => a == b
  | .str a, .str b => a == b
  | .set a, .set b => pyAllMem a b && pyAllMem b a
  | _, _ => false
termination_by a b => sizeOf a + sizeOf b

/-- Every element of the first list has a pyEq-equal element in the second
list; this is the subset test underlying frozenset comparison. -/
def pyAllMem : List Expr → List Expr → Bool
  | [], _ => true
  | x :: xs, b => pyAnyEq x b && pyAllMem xs b
termination_by a b => sizeOf a + sizeOf b

/-- Some element of the list is pyEq-equal to the given value; this is the
membership test of a frozenset. -/
def pyAnyEq : Expr → List Expr → Bool
  | _, [] => false
  | x, y :: ys => pyEq x y || pyAnyEq x ys
termination_by a b => sizeOf a + sizeOf b

end

/-- Union of two frozensets (representation level; extensional semantics). -/
def pySetUnion (a b : List Expr) : List Expr := a ++ b

/-- Intersection of two frozensets. -/
def pySetInter (a b : List Expr) : List Expr := a.filter (fun x => pyAnyEq x b)

/-- Symmetric difference of two frozensets. -/
def pySetSymmDiff (a b : List Expr) : List Expr :=
  a.filter (fun x => !pyAnyEq x b) ++ b.filter (fun y => !pyAnyEq y a)

/-- Subset-or-equal test between frozensets. -/
def pySubsetEq (a b : List Expr) : Bool := pyAllMem a b

/-- Equality test between frozensets. -/
def pySetEq (a b : List Expr) : Bool := pyAllMem a b && pyAllMem b a

/-- Proper-subset test between frozensets. -/
def pyProperSubset (a b : List Expr) : Bool := pyAllMem a b && !pyAllMem b a

/-- Helper _as_integer of ast_transformer.py (lines 296-300): a Fraction with
denominator 1 yields its numerator, anything else raises InvalidOperandError.
The two call sites pass Fractions, so the argument is typed as a rational. -/
def asInteger (q : ℚ) : Except EvalErr Int :=
  if q.den = 1 then .ok q.num
  else .error (.invalidOperand ("Expected an integer, found this: " ++ toString q))

/-- CPython evaluates Fraction ** Fraction with a non-integral exponent in
binary floating point; the rounded double result (or the complex-number
outcome for negative bases) lies outside this exact rational model, so that
branch is represented by this placeholder.  No claim depends on it. -/
def floatPow (_a _b : ℚ) : ℚ := 0

/-- Python power on Fractions: an integral exponent is computed exactly, with
ZeroDivisionError for a zero base and negative exponent; a non-integral
exponent takes the floating-point path (see floatPow). -/
def pyPow (a b : ℚ) : Except EvalErr ℚ :=
  if b.den = 1 then
    if a = 0 ∧ b.num < 0 then .error .zeroDivision
    else .ok (a ^ b.num)
  else .ok (floatPow a b)

/-- Python floor division on rationals: floor of the true quotient. -/
def pyFloorDiv (a b : ℚ) : Int := Rat.floor (a / b)

/-- Python modulo on rationals: remainder with the sign of the divisor,
a - b * floor(a / b). -/
def pyMod (a b : ℚ) : ℚ := a - b * ((Rat.floor (a / b) : ℚ))

/-- Message of the InvalidOperandError raised when the operator table has no
entry for the operand kinds (ast_transformer.py lines 291-293; the Python
message additionally interpolates the operand values, elided here). -/
def binOpErrMsg (op : String) : String :=
  "Binary operator " ++ op ++ " is not defined for these operands"

/-- The (set, set) dispatch table of _apply_binary_operator
(ast_transformer.py lines 220-236): set algebra, subset and superset tests,
and equality; a missing key raises KeyError, rethrown at the bottom of the
function as InvalidOperandError. -/
def applySetSet (op : String) (a b : List Expr) : Except EvalErr Expr :=
  if op = "|" then .ok (.set (pySetUnion a b))
  else if op = "&" then .ok (.set (pySetInter a b))
  else if op = "^" then .ok (.set (pySetSymmDiff a b))
  else if op = "<" then .ok (.bool (pyProperSubset a b))
  else if op = ">" then .ok (.bool (pyProperSubset b a))
  else if op = "<=" then .ok (.bool (pySubsetEq a b))
  else if op = ">=" then .ok (.bool (pySubsetEq b a))
  else if op = "==" then .ok (.bool (pySetEq a b))
  else if op = "!=" then .ok (.bool (!pySetEq a b))
  else .error (.invalidOperand (binOpErrMsg op))

/-- The (bool, bool) dispatch table of _apply_binary_operator
(ast_transformer.py lines 238-246). -/
def applyBoolBool (op : String) (a b : Bool) : Except EvalErr Expr :=
  if op = "||" then .ok (.bool (a || b))
  else if op = "&&" then .ok (.bool (a && b))
  else if op = "==" then .ok (.bool (a == b))
  else if op = "!=" then .ok (.bool (a != b))
  else .error (.invalidOperand (binOpErrMsg op))

/-- The (rational, rational) dispatch table of _apply_binary_operator
(ast_transformer.py lines 248-271): comparisons yield bool, bitwise operators
require integral operands, arithmetic operators accept any fractions.  The
division, floor-division and modulo lambdas raise ZeroDivisionError on a zero
divisor, which the KeyError handler of the source does not catch. -/
def applyFracFrac (op : String) (a b : ℚ) : Except EvalErr Expr :=
  if op = "==" then .ok (.bool (a == b))
  else if op = ">=" then .ok (.bool (decide (b ≤ a)))
  else if op = "<=" then .ok (.bool (decide (a ≤ b)))
  else if op = "!=" then .ok (.bool (a != b))
  else if op = "<" then .ok (.bool (decide (a < b)))
  else if op = ">" then .ok (.bool (decide (b < a)))
  else if op = "|" then do
    let x ← asInteger a
    let y ← asInteger b
    .ok (.frac ((Int.lor x y : Int) : ℚ))
  else if op = "^" then do
    let x ← asInteger a
    let y ← asInteger b
    .ok (.frac ((Int.xor x y : Int) : ℚ))
  else if op = "&" then do
    let x ← asInteger a
    let y ← asInteger b
    .ok (.frac ((Int.land x y : Int) : ℚ))
  else if op = "+" then .ok (.frac (a + b))
  else if op = "-" then .ok (.frac (a - b))
  else if op = "%" then
    if b = 0 then .error .zeroDivision else .ok (.frac (pyMod a b))
  else if op = "*" then .ok (.frac (a * b))
  else if op = "/" then
    if b = 0 then .error .zeroDivision else .ok (.frac (a / b))
  else if op = "//" then
    if b = 0 then .error .zeroDivision else .ok (.frac ((pyFloorDiv a b : Int) : ℚ))
  else if op = "**" then (pyPow a b).map Expr.frac
  else .error (.invalidOperand (binOpErrMsg op))

/-- The (str, str) dispatch table of _apply_binary_operator
(ast_transformer.py lines 273-282): concatenation and equality only. -/
def applyStrStr (op : String) (a b : String) : Except EvalErr Expr :=
  if op = "+" then .ok (.str (a ++ b))
  else if op = "==" then .ok (.bool (a == b))
  else if op = "!=" then .ok (.bool (a != b))
  else .error (.invalidOperand (binOpErrMsg op))

mutual

/-- Embedding of _apply_binary_operator (ast_transformer.py lines 211-293).
The branch order mirrors the source: (set, set) first, then (bool, bool),
(rational, rational), (str, str), then elementwise expansion when exactly one
operand is a frozenset (lines 284-288), and finally the KeyError of a pair of
operand kinds with no table turned into InvalidOperandError (lines 290-293).
The per-kind tables are the separate definitions above. -/
def applyBinaryOperator (op : String) (left right : Expr) : Except EvalErr Expr :=
  match left, right with
  | .set a, .set b => applySetSet op a b
  | .bool a, .bool b => applyBoolBool op a b
  | .frac a, .frac b => applyFracFrac op a b
  | .str a, .str b => applyStrStr op a b
  | .set a, r => (applyElemsLeft op a r).map Expr.set
  | l, .set b => (applyElemsRight op l b).map Expr.set
  | _, _ => .error (.invalidOperand (binOpErrMsg op))
termination_by sizeOf left + sizeOf right

/-- Left elementwise expansion (ast_transformer.py line 286): the operator is
applied between every element of the set and the fixed right operand; the
first exception propagates. -/
def applyElemsLeft (op : String) (xs : List Expr) (r : Expr) : Except EvalErr (List Expr) :=
  match xs with
  | [] => .ok []
  | x :: rest => do
    let y ← applyBinaryOperator op x r
    let ys ← applyElemsLeft op rest r
    .ok (y :: ys)
termination_by sizeOf xs + sizeOf r

/-- Right elementwise expansion (ast_transformer.py line 288). -/
def applyElemsRight (op : String) (l : Expr) (ys : List Expr) : Except EvalErr (List Expr) :=
  match ys with
  | [] => .ok []
  | y :: rest => do
    let z ← applyBinaryOperator op l y
    let zs ← applyElemsRight op l rest
    .ok (z :: zs)
termination_by sizeOf l + sizeOf ys

end

/-- Embedding of ASTTransformer.visit_unary_ex (ast_transformer.py lines
156-171): unary plus and minus are evaluated as multiplication by the
Fraction plus or minus one; an operator text outside the two-entry dict would
raise an uncaught KeyError (the grammar produces only the two). -/
def visitUnaryEx (opText : String) (rhs : Expr) : Except EvalErr Expr :=
  if opText = "+" then applyBinaryOperator "*" (.frac 1) rhs
  else if opText = "-" then applyBinaryOperator "*" (.frac (-1)) rhs
  else .error .uncaughtKeyError

/-- Errors of the front-end as they leave parse_definition, restricted to the
kinds the verified claims touch (dsdl_parser.py lines 32-53 declare the
InvalidDefinitionError subclasses; internal is InternalError from
frontend_error.py).  assertionCheckFailure carries the message, the
definition path and the line number stamped at the raise site
(dsdl_parser.py lines 226-229). -/
inductive DefinitionError where
  | semantic (message : String)
  | undefinedDataType (message : String)
  | assertionCheckFailure (message : String) (path : String) (line : Nat)
  | undefinedIdentifier (name : String)
  | invalidDirectiveUsage (message : String)
  | invalidOperand (message : String)
  | internal (message : String)
  deriving DecidableEq

/-- Classification of an exception escaping expression evaluation, following
the handler chain of parse_definition (dsdl_parser.py lines 76-91): a
FrontendError subclass such as InvalidOperandError propagates as itself
(line 80-82), while any other exception - a ZeroDivisionError raised by
Fraction arithmetic, or a KeyError, possibly wrapped in a parsimonious
VisitationError - is rethrown as InternalError (lines 83-91). -/
def classifyEvalException : EvalErr → DefinitionError
  | .invalidOperand m => .invalidOperand m
  | .zeroDivision => .internal "ZeroDivisionError"
  | .uncaughtKeyError => .internal "KeyError"

/-- Version pair of a definition.  Modelled from the spec: data_type.py is
not under src; per spec section 3 a version is the pair (major, minor). -/
structure Version where
  major : Nat
  minor : Nat
  deriving DecidableEq

/-- Modelled from the spec: dsdl_definition.py is not under src.  Per spec
section 3 the definition descriptor carries the full name, the enclosing
namespace, the version pair and the file path; these are exactly the fields
the in-src code reads.  Two descriptors are the same definition when all
components coincide, so descriptor equality is structural. -/
structure DSDLDefinition where
  fullName : String
  fullNamespace : String
  version : Version
  filePath : String
  deriving DecidableEq

/-- The test NAME_COMPONENT_SEPARATOR in name of dsdl_parser.py line 196:
the separator is the single character dot (spec section 6, full name =
components joined by dots), so the substring test is a character-membership
test. -/
def nameHasSeparator (name : String) : Bool := name.toList.contains '.'

/-- Matching predicate of the resolver (dsdl_parser.py line 203): a peer
matches when both its full name and its exact version equal the request. -/
def definitionMatches (fullName : String) (version : Version) (d : DSDLDefinition) : Bool :=
  d.fullName == fullName && d.version == version

/-- Message of the UndefinedDataTypeError raised when no peer matches
(dsdl_parser.py line 205; the source interpolates the name and version with
percent-r, approximated textually here). -/
def notFoundMessage (fullName : String) (v : Version) : String :=
  "Data type " ++ fullName ++ " version " ++ toString v.major ++ "." ++ toString v.minor
    ++ " could be found"

/-- Message of the InternalError raised on conflicting duplicates
(dsdl_parser.py line 207). -/
def conflictMessage (fullName : String) : String :=
  "Conflicting definitions: " ++ fullName

/-- Selection phase of _TypeBuilder.resolve_versioned_data_type
(dsdl_parser.py lines 195-213): a relative name (one without a separator) is
re-rooted under the namespace of the current definition; the peers are
filtered by exact full name and version; no match raises
UndefinedDataTypeError, several matches raise InternalError, and the unique
match is the definition on which line 215 recurses via parse_definition. -/
def resolveVersionedDataType (selfNamespace : String) (lookupDefinitions : List DSDLDefinition)
    (name : String) (version : Version) : Except DefinitionError DSDLDefinition :=
  let fullName := if nameHasSeparator name then name else selfNamespace ++ "." ++ name
  match lookupDefinitions.filter (definitionMatches fullName version) with
  | [] => .error (.undefinedDataType (notFoundMessage fullName version))
  | [d] => .ok d
  | _ :: _ :: _ => .error (.internal (conflictMessage fullName))

/-- Self-exclusion filter of parse_definition (dsdl_parser.py line 66): the
target definition is removed from the lookup list before any parsing, so a
recursive resolution can never reach the definition being parsed. -/
def excludeTarget (definition : DSDLDefinition) (lookupDefinitions : List DSDLDefinition) :
    List DSDLDefinition :=
  lookupDefinitions.filter (fun d => d != definition)

/-- Store of Python list objects: each heap cell holds one list, a reference
is an index into the store.  This makes mutation observable, so that the
frame property of parse_definition over its lookup_definitions argument is a
statement with content. -/
structure PyListStore (α : Type) where
  cells : List (List α)

/-- Dereference a list object in the store. -/
def PyListStore.read (st : PyListStore α) (ref : Nat) : List α :=
  st.cells.getD ref []

/-- The lookup handling at the head of parse_definition (dsdl_parser.py lines
59-66): the expression list(filter(lambda d: d != definition, lookup))
allocates a fresh list object and rebinds only the local name, leaving the
cell supplied by the caller untouched.  Returns the updated store and the
reference to the fresh list. -/
def parseDefinitionExcludeStep (st : PyListStore DSDLDefinition)
    (definition : DSDLDefinition) (lookupRef : Nat) :
    PyListStore DSDLDefinition × Nat :=
  (⟨st.cells ++ [excludeTarget definition (st.read lookupRef)]⟩, st.cells.length)

/-- Modelled from the spec: data_structure_builder.py is not under src.  Per
spec section 4.4 an accumulator holds the attribute list, a union flag and an
empty flag; per sections 3 and 4.7 its compute_bit_length_values returns the
current bit-length set, a finite non-empty set of non-negative integers,
carried here as the field bitLengthValues. -/
structure DataStructureBuilder where
  union : Bool
  empty : Bool
  bitLengthValues : List Nat
  deriving DecidableEq, Inhabited

/-- Print handler callback type (dsdl_parser.py line 22): emitting
definition, one-based line number, value or none; the return value is
ignored. -/
def PrintDirectiveOutputHandler : Type :=
  DSDLDefinition → Nat → Option Expr → Unit

/-- ConfigurationOptions (dsdl_parser.py lines 25-29). -/
structure ConfigurationOptions where
  printHandler : Option PrintDirectiveOutputHandler
  allowUnregulatedFixedPortId : Bool
  skipAssertionChecks : Bool

/-- The defaults assigned in ConfigurationOptions.__init__ (dsdl_parser.py
lines 26-29). -/
def ConfigurationOptions.defaults : ConfigurationOptions :=
  ⟨none, false, false⟩

/-- State of _TypeBuilder (dsdl_parser.py lines 94-104): the definition under
construction, the (already self-excluded) lookup list, the configuration, the
list of accumulators (one, or two once the service response marker was seen)
and the deprecated flag. -/
structure TypeBuilder where
  definition : DSDLDefinition
  lookupDefinitions : List DSDLDefinition
  configuration : ConfigurationOptions
  structs : List DataStructureBuilder
  isDeprecated : Bool

/-- Modelled from the spec: expression.py is not under src.  Per spec section
3 the expression values are Boolean, Rational, String and Set; TYPE_NAME is
the lowercase kind name interpolated into diagnostics
(dsdl_parser.py lines 235-236). -/
def Expr.typeName : Expr → String
  | .bool _ => "boolean"
  | .frac _ => "rational"
  | .str _ => "string"
  | .set _ => "set"

/-- Embedding of _TypeBuilder._on_assert_directive (dsdl_parser.py lines
224-236): a boolean false raises AssertionCheckFailureError stamped with the
definition path and the directive line; a boolean true does nothing; a
missing expression or a non-boolean value raises InvalidDirectiveUsageError.
The configuration (including skip_assertion_checks) is visible to the method
through self but is never consulted. -/
def onAssertDirective (b : TypeBuilder) (lineNumber : Nat) (value : Option Expr) :
    Except DefinitionError Unit :=
  match value with
  | some (.bool v) =>
    if !v then
      .error (.assertionCheckFailure "Assertion check has failed" b.definition.filePath lineNumber)
    else
      .ok ()
  | none => .error (.invalidDirectiveUsage "Assert directive requires an expression")
  | some v =>
    .error (.invalidDirectiveUsage
      ("The assertion check expression must yield a boolean, not " ++ v.typeName))

/-- Observable invocation of the host print callback. -/
structure PrintEvent where
  definition : DSDLDefinition
  lineNumber : Nat
  value : Option Expr

/-- Embedding of _TypeBuilder._on_print_directive (dsdl_parser.py lines
219-222): the configured handler - or a no-op lambda when none is configured
- is called with the definition, the line number and the optional value; the
builder state is not touched.  The call is modelled as an emitted event. -/
def onPrintDirective (b : TypeBuilder) (lineNumber : Nat) (value : Option Expr) :
    Except DefinitionError (TypeBuilder × List PrintEvent) :=
  match b.configuration.printHandler with
  | none => .ok (b, [])
  | some _ => .ok (b, [⟨b.definition, lineNumber, value⟩])

/-- Embedding of _TypeBuilder.resolve_top_level_identifier (dsdl_parser.py
lines 187-193): the name _offset_ yields the bit-length values of the current
accumulator, each wrapped as a Rational, collected into a Set; the Python
assert on line 190 (a non-empty set of ints) is modelled as an AssertionError
escaping as InternalError; any other name raises UndefinedIdentifierError. -/
def resolveTopLevelIdentifier (b : TypeBuilder) (name : String) :
    Except DefinitionError Expr :=
  if name = "_offset_" then
    let blv := (b.structs.getLastD default).bitLengthValues
    if blv.isEmpty then .error (.internal "AssertionError")
    else .ok (.set (blv.map (fun (n : Nat) => .frac (n : ℚ))))
  else .error (.undefinedIdentifier name)

/-- Leading-match test on character lists, used by the substring test. -/
def leadsWith : List Char → List Char → Bool
  | [], _ => true
  | _ :: _, [] => false
  | x :: xs, y :: ys => x == y && leadsWith xs ys

/-- Occurrence of the first character list anywhere inside the second. -/
def containsSub : List Char → List Char → Bool
  | needle, [] => leadsWith needle []
  | needle, y :: ys => leadsWith needle (y :: ys) || containsSub needle ys

/-- Substring occurrence test between strings, used to inspect diagnostic
messages in the theorems below. -/
def strContains (hay needle : String) : Bool := containsSub needle.toList hay.toList

/-- Concrete definition descriptor used by evaluation witnesses. -/
def sampleDefinition : DSDLDefinition :=
  ⟨"vendor.nested.Abc", "vendor.nested", ⟨1, 2⟩, "vendor/nested/58000.Abc.1.2.uavcan"⟩

/-- Concrete peer descriptor used by evaluation witnesses. -/
def samplePeer : DSDLDefinition :=
  ⟨"vendor.nested.Empty", "vendor.nested", ⟨255, 255⟩, "vendor/nested/Empty.255.255.uavcan"⟩

/-- Builder whose configuration sets skip_assertion_checks. -/
def sampleSkipBuilder : TypeBuilder :=
  ⟨sampleDefinition, [samplePeer], ⟨none, false, true⟩, [⟨false, true, [0]⟩], false⟩

/-- Builder under the default configuration whose current accumulator has the
bit-length values of a single uint8 field. -/
def sampleOffsetBuilder : TypeBuilder :=
  ⟨sampleDefinition, [samplePeer], ConfigurationOptions.defaults, [⟨false, false, [8]⟩], false⟩

/-- Builder under the default configuration, whose print handler is none. -/
def sampleNoHandlerBuilder : TypeBuilder :=
  ⟨sampleDefinition, [samplePeer], ConfigurationOptions.defaults, [⟨false, true, [0]⟩], false⟩

/-- Unfolding of the left elementwise expansion as a monadic map over the
element list. -/
theorem applyElemsLeft_eq_mapM (op : String) (xs : List Expr) (r : Expr) :
    applyElemsLeft op xs r = xs.mapM (fun x => applyBinaryOperator op x r) := by
  induction xs with
  | nil => rw [applyElemsLeft]; rfl
  | cons x rest ih => rw [applyElemsLeft, List.mapM_cons, ih]; rfl

/-- Unfolding of the right elementwise expansion as a monadic map over the
element list. -/
theorem applyElemsRight_eq_mapM (op : String) (l : Expr) (ys : List Expr) :
    applyElemsRight op l ys = ys.mapM (fun y => applyBinaryOperator op l y) := by
  induction ys with
  | nil => rw [applyElemsRight]; rfl
  | cons y rest ih => rw [applyElemsRight, List.mapM_cons, ih]; rfl

/-- Multiplying every element of a rational-element set by one on the left
returns the same elements. -/
theorem mul_one_elem (qs : List ℚ) :
    applyElemsRight "*" (.frac 1) (qs.map Expr.frac) = .ok (qs.map Expr.frac) := by
  induction qs with
  | nil => rw [List.map_nil, applyElemsRight]
  | cons q rest ih =>
    rw [List.map_cons, applyElemsRight]
    simp [applyBinaryOperator, applyFracFrac, ih]
    rfl

/-- Multiplying every element of a rational-element set by minus one on the
left negates the elements. -/
theorem mul_neg_one_elem (qs : List ℚ) :
    applyElemsRight "*" (.frac (-1)) (qs.map Expr.frac)
      = .ok (qs.map (fun q => Expr.frac (-q))) := by
  induction qs with
  | nil => rw [List.map_nil, applyElemsRight]; rfl
  | cons q rest ih =>
    rw [List.map_cons, applyElemsRight]
    simp [applyBinaryOperator, applyFracFrac, ih]
    rfl

/-- C1: the claim states that evaluating the binary operators for division,
floor division and modulo with a zero right-hand rational raises an
invalid-operand error rather than an internal error.  On the code the
Fraction lambdas raise ZeroDivisionError, which the KeyError handler of
_apply_binary_operator does not catch, and the handler chain of
parse_definition then rethrows it as InternalError: the spec describes the
intent and the code produces an internal error instead. -/
theorem division_like_operators_by_zero_escape_as_internal :
    applyBinaryOperator "/" (.frac 1) (.frac 0) = .error .zeroDivision
    ∧ applyBinaryOperator "//" (.frac 1) (.frac 0) = .error .zeroDivision
    ∧ applyBinaryOperator "%" (.frac 1) (.frac 0) = .error .zeroDivision
    ∧ classifyEvalException .zeroDivision = .internal "ZeroDivisionError" := by
  refine ⟨?_, ?_, ?_, rfl⟩ <;> simp [applyBinaryOperator, applyFracFrac]

/-- C2: the claim states that with skip_assertion_checks set a failed assert
raises no error.  On the code _on_assert_directive never consults the
configuration, so with the option set a boolean-false assert expression
still raises AssertionCheckFailureError: the option, declared in
ConfigurationOptions, has no effect. -/
theorem skip_assertion_checks_has_no_effect (b : TypeBuilder) (lineNumber : Nat)
    (_h : b.configuration.skipAssertionChecks = true) :
    onAssertDirective b lineNumber (some (.bool false))
      = .error (.assertionCheckFailure "Assertion check has failed"
          b.definition.filePath lineNumber) := rfl

/-- Witness for the C2 theorem: a concrete builder whose configuration sets
skip_assertion_checks, on which a false assert still fails. -/
theorem skip_assertion_checks_has_no_effect_witness :
    sampleSkipBuilder.configuration.skipAssertionChecks = true
    ∧ onAssertDirective sampleSkipBuilder 7 (some (.bool false))
        = .error (.assertionCheckFailure "Assertion check has failed"
            sampleSkipBuilder.definition.filePath 7) :=
  ⟨rfl, skip_assertion_checks_has_no_effect sampleSkipBuilder 7 rfl⟩

/-- C3 counterexample: the claim states that unary minus applied to a set
raises an invalid-operand error; on the code it succeeds, expanding
elementwise over the set. -/
theorem unary_minus_on_set_expands_elementwise :
    visitUnaryEx "-" (Expr.set [Expr.frac 1]) = Except.ok (Expr.set [Expr.frac (-1)]) := by
  simp [visitUnaryEx, applyBinaryOperator, applyElemsRight, applyFracFrac]
  rfl

/-- C3 amended: unary plus and minus act as multiplication by plus or minus
one; on a rational they yield the rational or its negation, on a boolean or
a string they raise invalid-operand, and on a set they are applied
elementwise to its members. -/
theorem unary_plus_minus_behaviour :
    (∀ q : ℚ, visitUnaryEx "+" (.frac q) = .ok (.frac q)
      ∧ visitUnaryEx "-" (.frac q) = .ok (.frac (-q)))
    ∧ (∀ v : Bool, visitUnaryEx "+" (.bool v) = .error (.invalidOperand (binOpErrMsg "*"))
      ∧ visitUnaryEx "-" (.bool v) = .error (.invalidOperand (binOpErrMsg "*")))
    ∧ (∀ s : String, visitUnaryEx "+" (.str s) = .error (.invalidOperand (binOpErrMsg "*"))
      ∧ visitUnaryEx "-" (.str s) = .error (.invalidOperand (binOpErrMsg "*")))
    ∧ (∀ qs : List ℚ,
        visitUnaryEx "+" (.set (qs.map Expr.frac)) = .ok (.set (qs.map Expr.frac))
      ∧ visitUnaryEx "-" (.set (qs.map Expr.frac))
          = .ok (.set (qs.map (fun q => Expr.frac (-q))))) := by
  refine ⟨fun q => ⟨?_, ?_⟩, fun v => ⟨?_, ?_⟩, fun s => ⟨?_, ?_⟩, fun qs => ⟨?_, ?_⟩⟩
  · simp [visitUnaryEx, applyBinaryOperator, applyFracFrac]
  · simp [visitUnaryEx, applyBinaryOperator, applyFracFrac]
  · simp [visitUnaryEx, applyBinaryOperator, applyBoolBool]
  · simp [visitUnaryEx, applyBinaryOperator, applyBoolBool]
  · simp [visitUnaryEx, applyBinaryOperator, applyStrStr]
  · simp [visitUnaryEx, applyBinaryOperator, applyStrStr]
  · simp [visitUnaryEx, applyBinaryOperator, mul_one_elem qs]
    rfl
  · simp [visitUnaryEx, applyBinaryOperator, mul_neg_one_elem qs]
    rfl

/-- C4: the self-exclusion filter at the head of parse_definition removes the
target definition from the lookup list, so resolving the full name and
version of the definition itself - when no distinct peer carries the same
pair - fails with UndefinedDataTypeError instead of recursing. -/
theorem self_reference_resolution_fails (defn : DSDLDefinition) (lookup : List DSDLDefinition)
    (hdot : nameHasSeparator defn.fullName = true)
    (huniq : ∀ d ∈ lookup, d.fullName = defn.fullName → d.version = defn.version → d = defn) :
    resolveVersionedDataType defn.fullNamespace (excludeTarget defn lookup)
        defn.fullName defn.version
      = .error (.undefinedDataType (notFoundMessage defn.fullName defn.version)) := by
  have hfilter : (excludeTarget defn lookup).filter
      (definitionMatches defn.fullName defn.version) = [] := by
    rw [List.filter_eq_nil_iff]
    intro d hd
    rw [excludeTarget, List.mem_filter] at hd
    obtain ⟨hmem, hne⟩ := hd
    intro hmatch
    rw [definitionMatches, Bool.and_eq_true, beq_iff_eq, beq_iff_eq] at hmatch
    have : d = defn := huniq d hmem hmatch.1 hmatch.2
    subst this
    simp at hne
  rw [resolveVersionedDataType]
  simp only [hdot, if_true]
  rw [hfilter]

/-- Witness for the C4 theorem: a concrete definition that appears in its own
lookup list next to one other peer; resolving its own name and version after
self-exclusion reports an undefined data type. -/
theorem self_reference_resolution_fails_witness :
    nameHasSeparator sampleDefinition.fullName = true
    ∧ (∀ d ∈ [sampleDefinition, samplePeer], d.fullName = sampleDefinition.fullName →
        d.version = sampleDefinition.version → d = sampleDefinition)
    ∧ resolveVersionedDataType sampleDefinition.fullNamespace
        (excludeTarget sampleDefinition [sampleDefinition, samplePeer])
        sampleDefinition.fullName sampleDefinition.version
      = .error (.undefinedDataType
          (notFoundMessage sampleDefinition.fullName sampleDefinition.version)) :=
  ⟨by decide, by decide,
   self_reference_resolution_fails sampleDefinition [sampleDefinition, samplePeer]
     (by decide) (by decide)⟩

/-- C5: with exactly one set operand, every binary operator expands
elementwise - the result arises from applying the operator between the
non-set operand and every element of the set - while with two set operands
the set-with-set table applies instead of the expansion. -/
theorem binary_operator_set_elementwise_expansion (op : String) (xs : List Expr) (r : Expr)
    (hr : ∀ ys, r ≠ Expr.set ys) :
    applyBinaryOperator op (.set xs) r
        = (xs.mapM (fun x => applyBinaryOperator op x r)).map Expr.set
    ∧ applyBinaryOperator op r (.set xs)
        = (xs.mapM (fun x => applyBinaryOperator op r x)).map Expr.set
    ∧ (∀ a b, applyBinaryOperator op (.set a) (.set b) = applySetSet op a b) := by
  refine ⟨?_, ?_, fun a b => by rw [applyBinaryOperator]⟩
  · cases r with
    | set ys => exact absurd rfl (hr ys)
    | bool v =>
      rw [applyBinaryOperator, applyElemsLeft_eq_mapM]
      exact fun _ h => Expr.noConfusion h
    | frac q =>
      rw [applyBinaryOperator, applyElemsLeft_eq_mapM]
      exact fun _ h => Expr.noConfusion h
    | str s =>
      rw [applyBinaryOperator, applyElemsLeft_eq_mapM]
      exact fun _ h => Expr.noConfusion h
  · cases r with
    | set ys => exact absurd rfl (hr ys)
    | bool v =>
      rw [applyBinaryOperator, applyElemsRight_eq_mapM]
      exact fun _ h => Expr.noConfusion h
    | frac q =>
      rw [applyBinaryOperator, applyElemsRight_eq_mapM]
      exact fun _ h => Expr.noConfusion h
    | str s =>
      rw [applyBinaryOperator, applyElemsRight_eq_mapM]
      exact fun _ h => Expr.noConfusion h

/-- Witness for the C5 theorem: a concrete addition between a one-element set
and a rational expands elementwise. -/
theorem binary_operator_set_elementwise_expansion_witness :
    (∀ ys, Expr.frac 2 ≠ Expr.set ys)
    ∧ applyBinaryOperator "+" (.set [.frac 1]) (.frac 2)
        = (([Expr.frac 1].mapM (fun x => applyBinaryOperator "+" x (.frac 2))).map Expr.set) :=
  ⟨fun _ h => Expr.noConfusion h,
   (binary_operator_set_elementwise_expansion "+" [Expr.frac 1] (Expr.frac 2)
      (fun _ h => Expr.noConfusion h)).1⟩

/-- C6 counterexample: the claim states that when no peer has the requested
major version the undefined-data-type diagnostic reads no suitable major
version; on the code the message of the single no-match raise is the fixed
generic text of line 205, which does not contain that phrase. -/
theorem resolver_message_lacks_major_distinction :
    resolveVersionedDataType "vendor" [⟨"ns.Type", "ns", ⟨2, 0⟩, "ns/Type.2.0.uavcan"⟩]
        "ns.Type" ⟨1, 0⟩
      = .error (.undefinedDataType (notFoundMessage "ns.Type" ⟨1, 0⟩))
    ∧ strContains (notFoundMessage "ns.Type" ⟨1, 0⟩) "no suitable major version" = false := by
  constructor
  · rfl
  · decide

/-- C6 amended: when the resolver is asked for a full name and version, no
matching peer raises UndefinedDataTypeError with the one generic message
(which does not single out the missing-major case), a unique match is
returned, and more than one peer with the identical full name and version
raises InternalError. -/
theorem resolver_outcomes (selfNs name : String) (v : Version) (lookup : List DSDLDefinition)
    (hname : nameHasSeparator name = true) :
    (lookup.countP (definitionMatches name v) = 0 →
      resolveVersionedDataType selfNs lookup name v
        = .error (.undefinedDataType (notFoundMessage name v)))
    ∧ (∀ d ∈ lookup, definitionMatches name v d = true →
        lookup.countP (definitionMatches name v) = 1 →
        resolveVersionedDataType selfNs lookup name v = .ok d)
    ∧ (2 ≤ lookup.countP (definitionMatches name v) →
        resolveVersionedDataType selfNs lookup name v
          = .error (.internal (conflictMessage name))) := by
  have hcount : lookup.countP (definitionMatches name v)
      = (lookup.filter (definitionMatches name v)).length := List.countP_eq_length_filter _ _
  refine ⟨fun h0 => ?_, fun d hd hmatch h1 => ?_, fun h2 => ?_⟩
  · rw [hcount] at h0
    rw [resolveVersionedDataType]
    simp only [hname, if_true]
    rw [List.length_eq_zero.mp h0]
  · rw [hcount] at h1
    obtain ⟨a, ha⟩ := List.length_eq_one.mp h1
    have hda : d ∈ lookup.filter (definitionMatches name v) :=
      List.mem_filter.mpr ⟨hd, hmatch⟩
    rw [ha, List.mem_singleton] at hda
    rw [resolveVersionedDataType]
    simp only [hname, if_true]
    rw [ha, hda]
  · rw [hcount] at h2
    rw [resolveVersionedDataType]
    simp only [hname, if_true]
    match hF : lookup.filter (definitionMatches name v), h2' : h2 with
    | x :: y :: rest, _ => rfl
    | [], _ => rw [hF] at h2; simp at h2
    | [x], _ => rw [hF] at h2; simp at h2

/-- Witness for the C6 amended theorem: the three outcomes at concrete
lookup lists with zero, one and two matching peers. -/
theorem resolver_outcomes_witness :
    resolveVersionedDataType "vendor" [] "ns.Type" ⟨1, 0⟩
      = .error (.undefinedDataType (notFoundMessage "ns.Type" ⟨1, 0⟩))
    ∧ resolveVersionedDataType "vendor" [⟨"ns.Type", "ns", ⟨1, 0⟩, "p1"⟩] "ns.Type" ⟨1, 0⟩
      = .ok ⟨"ns.Type", "ns", ⟨1, 0⟩, "p1"⟩
    ∧ resolveVersionedDataType "vendor"
        [⟨"ns.Type", "ns", ⟨1, 0⟩, "p1"⟩, ⟨"ns.Type", "ns", ⟨1, 0⟩, "p2"⟩] "ns.Type" ⟨1, 0⟩
      = .error (.internal (conflictMessage "ns.Type")) :=
  ⟨(resolver_outcomes "vendor" "ns.Type" ⟨1, 0⟩ [] (by decide)).1 (by decide),
   (resolver_outcomes "vendor" "ns.Type" ⟨1, 0⟩ [⟨"ns.Type", "ns", ⟨1, 0⟩, "p1"⟩]
      (by decide)).2.1 ⟨"ns.Type", "ns", ⟨1, 0⟩, "p1"⟩ (by decide) (by decide) (by decide),
   (resolver_outcomes "vendor" "ns.Type" ⟨1, 0⟩
      [⟨"ns.Type", "ns", ⟨1, 0⟩, "p1"⟩, ⟨"ns.Type", "ns", ⟨1, 0⟩, "p2"⟩]
      (by decide)).2.2 (by decide)⟩

/-- C7: an assert directive whose expression is boolean false raises
AssertionCheckFailureError carrying the definition path and the line; a
missing expression or a non-boolean value raises InvalidDirectiveUsageError;
a boolean true raises nothing. -/
theorem assert_directive_behaviour (b : TypeBuilder) (ln : Nat) :
    onAssertDirective b ln (some (.bool false))
        = .error (.assertionCheckFailure "Assertion check has failed" b.definition.filePath ln)
    ∧ onAssertDirective b ln (some (.bool true)) = .ok ()
    ∧ onAssertDirective b ln none
        = .error (.invalidDirectiveUsage "Assert directive requires an expression")
    ∧ (∀ q : ℚ, onAssertDirective b ln (some (.frac q))
        = .error (.invalidDirectiveUsage
            "The assertion check expression must yield a boolean, not rational"))
    ∧ (∀ s, onAssertDirective b ln (some (.str s))
        = .error (.invalidDirectiveUsage
            "The assertion check expression must yield a boolean, not string"))
    ∧ (∀ es, onAssertDirective b ln (some (.set es))
        = .error (.invalidDirectiveUsage
            "The assertion check expression must yield a boolean, not set")) :=
  ⟨rfl, rfl, rfl, fun _ => rfl, fun _ => rfl, fun _ => rfl⟩

/-- C8: in a builder state whose current accumulator has a non-empty
bit-length set, the identifier named offset resolves to a non-empty set of
rationals, each a non-negative integer with denominator one; any other
identifier raises UndefinedIdentifierError. -/
theorem offset_identifier_resolution (b : TypeBuilder)
    (hne : (b.structs.getLastD default).bitLengthValues ≠ []) :
    (∃ es, resolveTopLevelIdentifier b "_offset_" = .ok (.set es)
      ∧ es ≠ []
      ∧ ∀ e ∈ es, ∃ n : Nat, e = .frac (n : ℚ)
          ∧ ((n : ℚ)).den = 1 ∧ 0 ≤ ((n : ℚ)).num)
    ∧ (∀ name, name ≠ "_offset_" →
        resolveTopLevelIdentifier b name = .error (.undefinedIdentifier name)) := by
  constructor
  · refine ⟨(b.structs.getLastD default).bitLengthValues.map (fun (n : Nat) => .frac (n : ℚ)),
      ?_, ?_, ?_⟩
    · rw [resolveTopLevelIdentifier, if_pos rfl]
      rw [if_neg]
      rw [List.isEmpty_eq_false.mpr hne]
      exact Bool.false_ne_true
    · intro hmap
      exact hne (List.map_eq_nil_iff.mp hmap)
    · intro e he
      rw [List.mem_map] at he
      obtain ⟨n, _, rfl⟩ := he
      exact ⟨n, rfl, Rat.den_natCast n, by simp⟩
  · intro name hname
    rw [resolveTopLevelIdentifier, if_neg hname]

/-- Witness for the C8 theorem: a concrete builder whose accumulator holds
the bit-length set of a single eight-bit field. -/
theorem offset_identifier_resolution_witness :
    (sampleOffsetBuilder.structs.getLastD default).bitLengthValues ≠ []
    ∧ ((∃ es, resolveTopLevelIdentifier sampleOffsetBuilder "_offset_" = .ok (.set es)
      ∧ es ≠ []
      ∧ ∀ e ∈ es, ∃ n : Nat, e = .frac (n : ℚ)
          ∧ ((n : ℚ)).den = 1 ∧ 0 ≤ ((n : ℚ)).num)
    ∧ (∀ name, name ≠ "_offset_" →
        resolveTopLevelIdentifier sampleOffsetBuilder name
          = .error (.undefinedIdentifier name))) :=
  ⟨by decide, offset_identifier_resolution sampleOffsetBuilder (by decide)⟩

/-- C9: the lookup handling of parse_definition leaves every pre-existing
list cell of the store - in particular the sequence supplied by the caller -
unchanged, and the fresh list it allocates holds exactly the self-excluded
definitions. -/
theorem parse_definition_preserves_caller_lookup (st : PyListStore DSDLDefinition)
    (defn : DSDLDefinition) (lookupRef : Nat) (r : Nat) (hr : r < st.cells.length) :
    (parseDefinitionExcludeStep st defn lookupRef).1.read r = st.read r
    ∧ (parseDefinitionExcludeStep st defn lookupRef).1.read
        (parseDefinitionExcludeStep st defn lookupRef).2
      = excludeTarget defn (st.read lookupRef) := by
  constructor
  · rw [parseDefinitionExcludeStep]
    rw [PyListStore.read, PyListStore.read]
    exact List.getD_append _ _ _ _ hr
  · rw [parseDefinitionExcludeStep]
    rw [PyListStore.read]
    simp

/-- Witness for the C9 theorem: a store holding one concrete caller list. -/
theorem parse_definition_preserves_caller_lookup_witness :
    (0 : Nat) < (PyListStore.mk [[sampleDefinition, samplePeer]]).cells.length
    ∧ ((parseDefinitionExcludeStep ⟨[[sampleDefinition, samplePeer]]⟩ sampleDefinition 0).1.read 0
        = (PyListStore.mk [[sampleDefinition, samplePeer]]).read 0
      ∧ (parseDefinitionExcludeStep ⟨[[sampleDefinition, samplePeer]]⟩ sampleDefinition 0).1.read
          (parseDefinitionExcludeStep ⟨[[sampleDefinition, samplePeer]]⟩ sampleDefinition 0).2
        = excludeTarget sampleDefinition
            ((PyListStore.mk [[sampleDefinition, samplePeer]]).read 0)) :=
  ⟨by decide,
   parse_definition_preserves_caller_lookup ⟨[[sampleDefinition, samplePeer]]⟩
     sampleDefinition 0 0 (by decide)⟩

/-- C10: with no print handler configured, a print directive - with or
without an expression value - raises no error, emits nothing, and returns
the builder unchanged. -/
theorem print_directive_without_handler_is_noop (b : TypeBuilder) (lineNumber : Nat)
    (value : Option Expr) (h : b.configuration.printHandler = none) :
    onPrintDirective b lineNumber value = .ok (b, []) := by
  rw [onPrintDirective, h]

/-- Witness for the C10 theorem: a concrete builder without a print handler
and a print directive carrying a value. -/
theorem print_directive_without_handler_is_noop_witness :
    sampleNoHandlerBuilder.configuration.printHandler = none
    ∧ onPrintDirective sampleNoHandlerBuilder 3 (some (.frac 5))
        = .ok (sampleNoHandlerBuilder, []) :=
  ⟨rfl, print_directive_without_handler_is_noop sampleNoHandlerBuilder 3 (some (.frac 5)) rfl⟩

end Pydsdl
